import Mathlib

/-!
Verification of the client-side session resilience manager of the
TranscribeLecture frontend (component TranscriptionApp).

The component is embedded shallowly: the mutable refs and React state of the
component become one explicit record `Sys`; each event handler of the source
(the reconnect scheduler `reconnectWebSocket`, the timer callback it arms, the
keepalive interval tick, the HTTP status poll `pollSessionStatus`, the
WebSocket `onmessage` dispatch, `stopRecording`, and the clear-button handler)
becomes an executable function on `Sys`.  One-shot timeouts and repeating
intervals are represented by identifiers; a timer is "live" while its
identifier is in the corresponding list, and `clearTimeout`/`clearInterval`
erase the identifier from that list.
-/

/-- Connection states of the browser WebSocket (CONNECTING, OPEN, CLOSING,
CLOSED).  `opened` stands for the source constant `WebSocket.OPEN`. -/
inductive ReadyState where
  | connecting
  | opened
  | closing
  | closed
deriving DecidableEq, Repr, Fintype

/-- The recording-parameter snapshot stored in `recordingParamsRef.current`
by `startRecording`.  `recognizer_type` is `none` when the source stores the
JavaScript value `undefined` (method other than "system_recognizer");
`JSON.stringify` omits such a property.  `chunk_duration` is a number in the
source on which no arithmetic is ever performed; it is carried here as its
canonical serialized numeral. -/
structure RecordingParams where
  method : String
  recognizer_type : Option String
  source : String
  language : String
  chunk_duration : String
  enable_translation : Bool
  target_language : String
deriving DecidableEq, Repr

/-- The whole mutable state of one component instance: the React state record
(`isRecording`, `text`, `translatedText`, `error`, `sessionId`) together with
the refs (`wsRef`, `reconnectTimeoutRef`, `reconnectAttemptsRef`,
`pingIntervalRef`, `sessionIdRef`, `recordingParamsRef`,
`statusPollIntervalRef`).  For each timer ref a companion list holds the
identifiers of the timers of that kind that are scheduled and not yet
cancelled. -/
structure Sys where
  isRecording : Bool
  text : String
  translatedText : String
  error : Option String
  sessionId : Option String
  wsRef : Option ReadyState
  reconnectTimeoutRef : Option Nat
  liveReconnects : List Nat
  reconnectAttemptsRef : Nat
  pingIntervalRef : Option Nat
  livePings : List Nat
  sessionIdRef : Option String
  recordingParamsRef : Option RecordingParams
  statusPollIntervalRef : Option Nat
  livePolls : List Nat
deriving DecidableEq, Repr

/-- Cadence of the keepalive ping interval armed in
`setupWebSocketHandlers` (milliseconds). -/
def pingIntervalMs : Nat := 10000

/-- Cadence of the HTTP status poll interval (milliseconds). -/
def statusPollIntervalMs : Nat := 1000

/-- Cadence of the periodic connection check (milliseconds). -/
def connectionCheckIntervalMs : Nat := 3000

/-- Backoff delay computed by `reconnectWebSocket` from the current value of
`reconnectAttemptsRef` (before the increment): 100 ms for the first attempt,
then `min(1000 * 2 ^ (attempts - 1), 10000)` ms. -/
def reconnectDelay (attempts : Nat) : Nat :=
  if attempts = 0 then 100 else min (1000 * 2 ^ (attempts - 1)) 10000

/-- The synchronous part of `reconnectWebSocket`: return unchanged when the
session is not recording, the session-id ref is null, or the cached parameters
are null; otherwise cancel a pending reconnect timeout if any, compute the
backoff delay from the current attempt counter, increment the counter, and arm
a fresh timeout `tNew`.  The second component is the delay the timeout was
armed with (`none` when the call was a no-op). -/
def reconnectWebSocket (s : Sys) (tNew : Nat) : Sys × Option Nat :=
  if s.isRecording = false ∨ s.sessionIdRef = none ∨ s.recordingParamsRef = none then
    (s, none)
  else
    let s1 : Sys :=
      match s.reconnectTimeoutRef with
      | some t => { s with liveReconnects := s.liveReconnects.erase t }
      | none => s
    let delay := reconnectDelay s1.reconnectAttemptsRef
    let s2 : Sys := { s1 with reconnectAttemptsRef := s1.reconnectAttemptsRef + 1 }
    ({ s2 with reconnectTimeoutRef := some tNew,
               liveReconnects := s2.liveReconnects ++ [tNew] }, some delay)

/-- The callback armed by `reconnectWebSocket`, fired for timeout `t`.  A
cancelled timeout never fires (`t` must be live); a fired one-shot timeout is
consumed.  The callback returns early when `isRecording` is false; otherwise
it constructs a new WebSocket and stores it in `wsRef`.  The boolean reports
whether a transport was created. -/
def reconnectTimerFired (s : Sys) (t : Nat) : Sys × Bool :=
  if t ∈ s.liveReconnects then
    let s0 : Sys := { s with liveReconnects := s.liveReconnects.erase t }
    if s0.isRecording = false then (s0, false)
    else ({ s0 with wsRef := some ReadyState.connecting }, true)
  else (s, false)

/-- Inbound frames dispatched by the `onmessage` handler, discriminated by
the `type` field of the decoded JSON.  Optional string payload fields are
`none` when the property is absent; `unknown` stands for any `type` value the
dispatch chain does not test for. -/
inductive Frame where
  | pong
  | started
  | reconnected (text : Option String) (translated_text : Option String)
  | text (text : Option String)
  | translatedText (translated_text : Option String)
  | complete (text : Option String)
  | stopped
  | cleared
  | error (message : String)
  | unknown
deriving DecidableEq, Repr

/-- The JavaScript idiom `v || ""` on an optional string: the value when it
is present and non-empty, the empty string otherwise. -/
def jsOrEmpty (v : Option String) : String := v.getD ""

/-- The JavaScript idiom `v || fallback` on an optional string: the value
when present and non-empty, otherwise the fallback. -/
def jsOr (v : Option String) (fallback : String) : String :=
  if v.getD "" = "" then fallback else v.getD ""

/-- The `onmessage` dispatch of `setupWebSocketHandlers`, one branch per
frame type.  The `stopped` branch additionally cancels the ping interval
(without nulling its ref, as in the source). -/
def applyMessage (s : Sys) (f : Frame) : Sys :=
  match f with
  | Frame.pong => s
  | Frame.started => s
  | Frame.reconnected t tr =>
    { s with text := jsOrEmpty t, translatedText := jsOrEmpty tr }
  | Frame.text t =>
    let fullText := jsOrEmpty t
    if fullText = "" then s else { s with text := fullText }
  | Frame.translatedText tr =>
    let v := jsOrEmpty tr
    if v = "" then s else { s with translatedText := v }
  | Frame.complete t =>
    if jsOrEmpty t = "" then { s with isRecording := false, error := none }
    else { s with text := jsOrEmpty t, isRecording := false, error := none }
  | Frame.stopped =>
    let s1 : Sys := { s with isRecording := false, error := none }
    (match s1.pingIntervalRef with
     | some tm => { s1 with livePings := s1.livePings.erase tm }
     | none => s1)
  | Frame.cleared => { s with text := "", translatedText := "" }
  | Frame.error msg => { s with isRecording := false, error := some msg }
  | Frame.unknown => s

/-- Outcome of one HTTP status poll: the fetch threw, the response was not
ok, or an ok JSON body carrying is_recording, text and translated_text. -/
inductive PollResult where
  | fetchError
  | notOk
  | ok (is_recording : Bool) (text : Option String) (translated_text : Option String)
deriving DecidableEq, Repr

/-- One tick of `pollSessionStatus`: return early unless recording with a
non-null session-id ref; swallow fetch errors and non-ok responses; on an ok
body either merge the text fields (`data.text || prev.text`) when the server
reports recording, or mark recording inactive when it does not. -/
def pollSessionStatus (s : Sys) (r : PollResult) : Sys :=
  if s.isRecording = false ∨ s.sessionIdRef = none then s
  else
    match r with
    | PollResult.fetchError => s
    | PollResult.notOk => s
    | PollResult.ok isRec t tr =>
      if isRec then
        { s with text := jsOr t s.text,
                 translatedText := jsOr tr s.translatedText }
      else
        { s with isRecording := false }

/-- Action taken by one tick of the keepalive interval. -/
inductive KeepaliveAction where
  | sendPing
  | reconnect
  | nothing
deriving DecidableEq, Repr

/-- One tick of the keepalive interval armed in `setupWebSocketHandlers`:
when the socket reports OPEN, send a ping (falling back to
`reconnectWebSocket` when the send throws while recording); otherwise call
`reconnectWebSocket` only when recording and the socket is absent or CLOSED. -/
def keepaliveTick (ws : Option ReadyState) (isRecording : Bool)
    (sendOk : Bool) : KeepaliveAction :=
  match ws with
  | some ReadyState.opened =>
    if sendOk then KeepaliveAction.sendPing
    else if isRecording then KeepaliveAction.reconnect
    else KeepaliveAction.nothing
  | some ReadyState.closed =>
    if isRecording then KeepaliveAction.reconnect else KeepaliveAction.nothing
  | none =>
    if isRecording then KeepaliveAction.reconnect else KeepaliveAction.nothing
  | _ => KeepaliveAction.nothing

/-- The clear-button handler: reset both local text fields immediately; the
boolean reports whether a clear command was also sent to the server, which
the source does exactly when the socket is currently OPEN. -/
def clearTranscript (s : Sys) : Sys × Bool :=
  ({ s with text := "", translatedText := "" },
   match s.wsRef with
   | some ReadyState.opened => true
   | _ => false)

/-- Escape one character the way `JSON.stringify` renders it inside a string
literal. -/
def jsonEscapeChar (c : Char) : String :=
  if c = '\\' then "\\\\"
  else if c = '\"' then "\\\""
  else if c = '\n' then "\\n"
  else if c = '\r' then "\\r"
  else if c = '\t' then "\\t"
  else String.singleton c

/-- Escape a whole string for a JSON string literal. -/
def jsonEscape (s : String) : String :=
  String.join (s.toList.map jsonEscapeChar)

/-- A JSON string literal. -/
def jsonStr (s : String) : String := "\"" ++ jsonEscape s ++ "\""

/-- One key-value member of a JSON object. -/
def jsonField (k v : String) : String := jsonStr k ++ ":" ++ v

/-- `JSON.stringify` applied to the recording-parameter object, with the
property order of the object literal built in `startRecording`; a property
holding `undefined` (a `none` recognizer type) is omitted, as
`JSON.stringify` omits it. -/
def stringifyParams (p : RecordingParams) : String :=
  "\x7b" ++ String.intercalate ","
    ([jsonField "method" (jsonStr p.method)] ++
     (match p.recognizer_type with
      | some r => [jsonField "recognizer_type" (jsonStr r)]
      | none => []) ++
     [jsonField "source" (jsonStr p.source),
      jsonField "language" (jsonStr p.language),
      jsonField "chunk_duration" p.chunk_duration,
      jsonField "enable_translation" (if p.enable_translation then "true" else "false"),
      jsonField "target_language" (jsonStr p.target_language)]) ++ "\x7d"

/-- The snapshot captured by `startRecording` from the current UI settings;
the recognizer type is stored only for the "system_recognizer" method (the
source stores `undefined` otherwise). -/
def buildRecordingParams (method recognizerType source language
    chunkDuration targetLanguage : String) (enableTranslation : Bool) :
    RecordingParams :=
  { method := method
    recognizer_type :=
      if method = "system_recognizer" then some recognizerType else none
    source := source
    language := language
    chunk_duration := chunkDuration
    enable_translation := enableTranslation
    target_language := targetLanguage }

/-- The first outbound frame of `startRecording`'s `onopen`:
`JSON.stringify` of the object stored in `recordingParamsRef.current`. -/
def startParamsFrame (p : RecordingParams) : String := stringifyParams p

/-- The parameter frame the reconnect callback's `onopen` sends: an object
literal rebuilt property by property from `recordingParamsRef.current`, then
serialized. -/
def reconnectParamsFrame (p : RecordingParams) : String :=
  stringifyParams
    { method := p.method
      recognizer_type := p.recognizer_type
      source := p.source
      language := p.language
      chunk_duration := p.chunk_duration
      enable_translation := p.enable_translation
      target_language := p.target_language }

/-- List view of an optional timer identifier. -/
def optList : Option Nat → List Nat
  | none => []
  | some t => [t]

/-- The live reconnect timeouts are exactly the one tracked by
`reconnectTimeoutRef` — the shape the source maintains, since every arm site
first cancels the tracked timeout. -/
def reconnectTimersInv (s : Sys) : Prop :=
  s.liveReconnects = optList s.reconnectTimeoutRef

instance (s : Sys) : Decidable (reconnectTimersInv s) := by
  unfold reconnectTimersInv; infer_instance

/-- A concrete component state used to instantiate theorems with hypotheses. -/
def demoParams : RecordingParams :=
  { method := "system_recognizer"
    recognizer_type := some "google"
    source := "microphone"
    language := "ru"
    chunk_duration := "0.2"
    enable_translation := false
    target_language := "en" }

/-- A concrete in-flight recording state: session active, socket open, one
live ping interval and one live poll interval, no pending reconnect. -/
def demoState : Sys :=
  { isRecording := true
    text := "привет"
    translatedText := ""
    error := none
    sessionId := some "session_1"
    wsRef := some ReadyState.opened
    reconnectTimeoutRef := none
    liveReconnects := []
    reconnectAttemptsRef := 0
    pingIntervalRef := some 2
    livePings := [2]
    sessionIdRef := some "session_1"
    recordingParamsRef := some demoParams
    statusPollIntervalRef := some 3
    livePolls := [3] }

/-- The handler `stopRecording`: cancel the pending reconnect timeout and
null its ref, cancel the ping and status-poll intervals and null their refs,
send a stop frame on the socket if any and close it nulling `wsRef`, null
`sessionIdRef` and `recordingParamsRef`, and mark recording inactive. -/
def stopRecording (s : Sys) : Sys :=
  let s1 : Sys :=
    match s.reconnectTimeoutRef with
    | some t => { s with liveReconnects := s.liveReconnects.erase t,
                         reconnectTimeoutRef := none }
    | none => s
  let s2 : Sys :=
    match s1.pingIntervalRef with
    | some t => { s1 with livePings := s1.livePings.erase t,
                          pingIntervalRef := none }
    | none => s1
  let s3 : Sys :=
    match s2.statusPollIntervalRef with
    | some t => { s2 with livePolls := s2.livePolls.erase t,
                          statusPollIntervalRef := none }
    | none => s2
  let s4 : Sys :=
    match s3.wsRef with
    | some _ => { s3 with wsRef := none }
    | none => s3
  { s4 with sessionIdRef := none, recordingParamsRef := none,
            isRecording := false }

lemma reconnectDelay_of_ne_zero (k : Nat) (hk : k ≠ 0) :
    reconnectDelay k = min (1000 * 2 ^ (k - 1)) 10000 := by
  simp [reconnectDelay, hk]

lemma reconnectDelay_cap (k : Nat) (hk : 5 ≤ k) : reconnectDelay k = 10000 := by
  rw [reconnectDelay_of_ne_zero k (by omega)]
  have h16 : 2 ^ 4 ≤ 2 ^ (k - 1) := Nat.pow_le_pow_right (by norm_num) (by omega)
  have : 10000 ≤ 1000 * 2 ^ (k - 1) := by
    calc 10000 ≤ 1000 * 2 ^ 4 := by norm_num
    _ ≤ 1000 * 2 ^ (k - 1) := Nat.mul_le_mul_left 1000 h16
  omega

lemma reconnectWebSocket_active (s : Sys) (tNew : Nat)
    (h1 : s.isRecording = true) (h2 : s.sessionIdRef ≠ none)
    (h3 : s.recordingParamsRef ≠ none) :
    (reconnectWebSocket s tNew).2 = some (reconnectDelay s.reconnectAttemptsRef) ∧
    (reconnectWebSocket s tNew).1.reconnectAttemptsRef = s.reconnectAttemptsRef + 1 := by
  unfold reconnectWebSocket
  cases hr : s.reconnectTimeoutRef <;> simp [h1, h2, h3, hr]

/-- C1: the reconnect delay is 100 ms for attempt counter 0 and
`min(1000 * 2^(k-1), 10000)` ms for counter `k ≥ 1`; concretely
100, 1000, 2000, 4000, 8000, 10000 ms for k = 0..5 and 10000 ms for every
larger counter; and a scheduling call arms the timeout with the delay of the
pre-call counter while storing the incremented counter. -/
theorem backoff_schedule :
    reconnectDelay 0 = 100 ∧
    (∀ k, 1 ≤ k → reconnectDelay k = min (1000 * 2 ^ (k - 1)) 10000) ∧
    reconnectDelay 1 = 1000 ∧ reconnectDelay 2 = 2000 ∧ reconnectDelay 3 = 4000 ∧
    reconnectDelay 4 = 8000 ∧ reconnectDelay 5 = 10000 ∧
    (∀ k, 5 ≤ k → reconnectDelay k = 10000) ∧
    (∀ s tNew, s.isRecording = true → s.sessionIdRef ≠ none →
      s.recordingParamsRef ≠ none →
      (reconnectWebSocket s tNew).2 = some (reconnectDelay s.reconnectAttemptsRef) ∧
      (reconnectWebSocket s tNew).1.reconnectAttemptsRef = s.reconnectAttemptsRef + 1) := by
  refine ⟨by decide, ?_, by decide, by decide, by decide, by decide, by decide, ?_, ?_⟩
  · intro k hk; exact reconnectDelay_of_ne_zero k (by omega)
  · intro k hk; exact reconnectDelay_cap k hk
  · intro s tNew h1 h2 h3; exact reconnectWebSocket_active s tNew h1 h2 h3

/-- Instantiation of `backoff_schedule` at the concrete state `demoState`. -/
theorem backoff_schedule_witness :
    reconnectDelay 7 = min (1000 * 2 ^ 6) 10000 ∧
    reconnectDelay 9 = 10000 ∧
    (reconnectWebSocket demoState 5).2 =
      some (reconnectDelay demoState.reconnectAttemptsRef) ∧
    (reconnectWebSocket demoState 5).1.reconnectAttemptsRef =
      demoState.reconnectAttemptsRef + 1 :=
  ⟨backoff_schedule.2.1 7 (by decide), backoff_schedule.2.2.2.2.2.2.2.1 9 (by decide),
   (backoff_schedule.2.2.2.2.2.2.2.2 demoState 5 (by decide) (by decide) (by decide)).1,
   (backoff_schedule.2.2.2.2.2.2.2.2 demoState 5 (by decide) (by decide) (by decide)).2⟩

lemma stopRecording_spec (s : Sys) :
    (stopRecording s).isRecording = false ∧
    (stopRecording s).sessionIdRef = none ∧
    (stopRecording s).recordingParamsRef = none ∧
    (stopRecording s).reconnectTimeoutRef = none ∧
    (stopRecording s).liveReconnects =
      (match s.reconnectTimeoutRef with
       | some t => s.liveReconnects.erase t
       | none => s.liveReconnects) := by
  unfold stopRecording
  cases hr : s.reconnectTimeoutRef <;>
    cases hp : s.pingIntervalRef <;>
      cases hq : s.statusPollIntervalRef <;>
        cases hw : s.wsRef <;> simp [hr, hp, hq, hw]

lemma stopRecording_liveReconnects_nil (s : Sys) (hinv : reconnectTimersInv s) :
    (stopRecording s).liveReconnects = [] := by
  rw [(stopRecording_spec s).2.2.2.2, hinv]
  cases s.reconnectTimeoutRef <;> simp [optList]

/-- C2: after `stopRecording` the pending reconnect timeout is cleared, the
session-id ref and cached parameters are null and recording is inactive; a
reconnect callback firing afterwards never creates a transport, and under the
timer-bookkeeping invariant it is a complete no-op. -/
theorem no_reconnect_after_stop :
    (∀ s, (stopRecording s).isRecording = false ∧
          (stopRecording s).sessionIdRef = none ∧
          (stopRecording s).recordingParamsRef = none ∧
          (stopRecording s).reconnectTimeoutRef = none) ∧
    (∀ s t, (reconnectTimerFired (stopRecording s) t).2 = false) ∧
    (∀ s t, reconnectTimersInv s →
      reconnectTimerFired (stopRecording s) t = (stopRecording s, false)) := by
  refine ⟨?_, ?_, ?_⟩
  · intro s
    exact ⟨(stopRecording_spec s).1, (stopRecording_spec s).2.1,
           (stopRecording_spec s).2.2.1, (stopRecording_spec s).2.2.2.1⟩
  · intro s t
    unfold reconnectTimerFired
    split
    · simp [(stopRecording_spec s).1]
    · rfl
  · intro s t hinv
    unfold reconnectTimerFired
    rw [stopRecording_liveReconnects_nil s hinv]
    simp

/-- Instantiation of `no_reconnect_after_stop` at the concrete state
`demoState`. -/
theorem no_reconnect_after_stop_witness :
    reconnectTimerFired (stopRecording demoState) 9 = (stopRecording demoState, false) :=
  no_reconnect_after_stop.2.2 demoState 9 (by decide)

lemma reconnectWebSocket_noop (s : Sys) (t : Nat)
    (hg : s.isRecording = false ∨ s.sessionIdRef = none ∨ s.recordingParamsRef = none) :
    reconnectWebSocket s t = (s, none) := by
  unfold reconnectWebSocket
  simp [hg]

lemma reconnectWebSocket_schedules (s : Sys) (t : Nat)
    (hinv : reconnectTimersInv s) (h1 : s.isRecording = true)
    (h2 : s.sessionIdRef ≠ none) (h3 : s.recordingParamsRef ≠ none) :
    (reconnectWebSocket s t).1.liveReconnects = [t] ∧
    (reconnectWebSocket s t).1.reconnectTimeoutRef = some t := by
  unfold reconnectWebSocket
  unfold reconnectTimersInv at hinv
  cases hr : s.reconnectTimeoutRef <;> rw [hr] at hinv <;>
    simp_all [optList]

/-- C3: `reconnectWebSocket` is a no-op when the session is inactive, the
session-id ref is null, or the cached parameters are null; a scheduling call
leaves exactly the freshly armed timeout pending, so the one-pending-timer
bookkeeping shape is preserved and at most one scheduled reconnect is pending
at any time. -/
theorem schedule_reconnect_single_pending :
    (∀ s t, s.isRecording = false → reconnectWebSocket s t = (s, none)) ∧
    (∀ s t, s.sessionIdRef = none → reconnectWebSocket s t = (s, none)) ∧
    (∀ s t, s.recordingParamsRef = none → reconnectWebSocket s t = (s, none)) ∧
    (∀ s t, reconnectTimersInv s → reconnectTimersInv (reconnectWebSocket s t).1 ∧
      (reconnectWebSocket s t).1.liveReconnects.length ≤ 1) ∧
    (∀ s t, reconnectTimersInv s → s.isRecording = true → s.sessionIdRef ≠ none →
      s.recordingParamsRef ≠ none →
      (reconnectWebSocket s t).1.liveReconnects = [t] ∧
      (reconnectWebSocket s t).1.reconnectTimeoutRef = some t) := by
  refine ⟨?_, ?_, ?_, ?_, ?_⟩
  · intro s t h; exact reconnectWebSocket_noop s t (Or.inl h)
  · intro s t h; exact reconnectWebSocket_noop s t (Or.inr (Or.inl h))
  · intro s t h; exact reconnectWebSocket_noop s t (Or.inr (Or.inr h))
  · intro s t hinv
    by_cases h1 : s.isRecording = false ∨ s.sessionIdRef = none ∨
      s.recordingParamsRef = none
    · rw [reconnectWebSocket_noop s t h1]
      refine ⟨hinv, ?_⟩
      rw [hinv]; cases s.reconnectTimeoutRef <;> simp [optList]
    · push_neg at h1
      obtain ⟨ha, hb, hc⟩ := h1
      have ha2 : s.isRecording = true := by
        cases hrec : s.isRecording
        · exact absurd hrec ha
        · rfl
      have h := reconnectWebSocket_schedules s t hinv ha2 hb hc
      constructor
      · unfold reconnectTimersInv
        rw [h.1, h.2]
        simp [optList]
      · rw [h.1]; simp
  · intro s t hinv h1 h2 h3
    exact reconnectWebSocket_schedules s t hinv h1 h2 h3

/-- Instantiation of `schedule_reconnect_single_pending` at concrete states:
the call on the stopped state is a no-op and the call on the active
`demoState` leaves exactly timeout 4 pending. -/
theorem schedule_reconnect_single_pending_witness :
    reconnectWebSocket (stopRecording demoState) 4 = (stopRecording demoState, none) ∧
    (reconnectWebSocket demoState 4).1.liveReconnects = [4] ∧
    (reconnectWebSocket demoState 4).1.reconnectTimeoutRef = some 4 :=
  ⟨schedule_reconnect_single_pending.1 (stopRecording demoState) 4 (by decide),
   (schedule_reconnect_single_pending.2.2.2.2 demoState 4 (by decide) (by decide)
     (by decide) (by decide)).1,
   (schedule_reconnect_single_pending.2.2.2.2 demoState 4 (by decide) (by decide)
     (by decide) (by decide)).2⟩

/-- C4 as stated is false: a text frame whose snapshot value is the empty
string does not replace the accumulated text with that value — on a state
holding "привет" the text is left untouched instead of becoming empty. -/
theorem text_frame_claim_counterexample :
    applyMessage demoState (Frame.text (some "")) ≠
      { demoState with text := "" } := by
  decide

/-- C4 amended: a text frame replaces the accumulated text whenever its
snapshot value is non-empty (an empty or absent value leaves the state
unchanged, see the empty-snapshot theorem); applying the same text frame
twice equals applying it once, and re-applying a snapshot equal to the
current text leaves the state unchanged. -/
theorem text_frame_replace_idempotent :
    (∀ s v, v ≠ "" → applyMessage s (Frame.text (some v)) = { s with text := v }) ∧
    (∀ s o, applyMessage (applyMessage s (Frame.text o)) (Frame.text o) =
      applyMessage s (Frame.text o)) ∧
    (∀ s, applyMessage s (Frame.text (some s.text)) = s) := by
  refine ⟨?_, ?_, ?_⟩
  · intro s v h
    simp [applyMessage, jsOrEmpty, h]
  · intro s o
    cases o with
    | none => simp [applyMessage, jsOrEmpty]
    | some v =>
      by_cases h : v = "" <;> simp [applyMessage, jsOrEmpty, h]
  · intro s
    by_cases h : s.text = "" <;> simp [applyMessage, jsOrEmpty, h]

/-- Instantiation of `text_frame_replace_idempotent` at the concrete state
`demoState` and the snapshot value "x". -/
theorem text_frame_replace_idempotent_witness :
    applyMessage demoState (Frame.text (some "x")) = { demoState with text := "x" } ∧
    applyMessage (applyMessage demoState (Frame.text (some "x"))) (Frame.text (some "x")) =
      applyMessage demoState (Frame.text (some "x")) :=
  ⟨text_frame_replace_idempotent.1 demoState "x" (by decide),
   text_frame_replace_idempotent.2.1 demoState (some "x")⟩

/-- C5: a reconnected frame overwrites both local text fields with the
server-provided values whatever the current local values are; in particular a
clear issued locally is overridden by a later session-resumed frame carrying
non-empty server text. -/
theorem reconnected_frame_server_wins :
    (∀ s t tr, (applyMessage s (Frame.reconnected (some t) (some tr))).text = t ∧
      (applyMessage s (Frame.reconnected (some t) (some tr))).translatedText = tr) ∧
    (∀ s t tr, (applyMessage s (Frame.reconnected t tr)).text = jsOrEmpty t ∧
      (applyMessage s (Frame.reconnected t tr)).translatedText = jsOrEmpty tr) ∧
    (clearTranscript demoState).1.text = "" ∧
    (applyMessage (clearTranscript demoState).1
      (Frame.reconnected (some "старый текст") none)).text = "старый текст" := by
  refine ⟨?_, ?_, by decide, by decide⟩
  · intro s t tr
    exact ⟨rfl, rfl⟩
  · intro s t tr
    exact ⟨rfl, rfl⟩

/-- C6 as stated is false: with an active session and a transport in the
CONNECTING (or CLOSING) state — states other than OPEN — the keepalive tick
does not call the reconnect scheduler; it does nothing. -/
theorem keepalive_claim_counterexample :
    keepaliveTick (some ReadyState.connecting) true true ≠ KeepaliveAction.reconnect ∧
    keepaliveTick (some ReadyState.closing) true true ≠ KeepaliveAction.reconnect ∧
    keepaliveTick (some ReadyState.connecting) true true = KeepaliveAction.nothing := by
  decide

/-- C6 amended: the keepalive interval has a fixed 10000 ms cadence; a tick
sends a ping when the transport reports OPEN (falling back to the reconnect
scheduler when the send fails while recording) and calls the reconnect
scheduler only when recording and the transport is absent or CLOSED;
CONNECTING and CLOSING ticks do nothing, as do all ticks while not
recording. -/
theorem keepalive_tick_behavior :
    pingIntervalMs = 10000 ∧
    (∀ ok rec, keepaliveTick (some ReadyState.opened) rec ok =
      if ok then KeepaliveAction.sendPing
      else if rec then KeepaliveAction.reconnect else KeepaliveAction.nothing) ∧
    (∀ ok, keepaliveTick none true ok = KeepaliveAction.reconnect) ∧
    (∀ ok, keepaliveTick (some ReadyState.closed) true ok = KeepaliveAction.reconnect) ∧
    (∀ ok, keepaliveTick (some ReadyState.connecting) true ok = KeepaliveAction.nothing) ∧
    (∀ ok, keepaliveTick (some ReadyState.closing) true ok = KeepaliveAction.nothing) ∧
    (∀ ok, keepaliveTick none false ok = KeepaliveAction.nothing) ∧
    (∀ st ok, st ≠ ReadyState.opened →
      keepaliveTick (some st) false ok = KeepaliveAction.nothing) := by
  decide

/-- Instantiation of `keepalive_tick_behavior` at a concrete non-OPEN state
while not recording. -/
theorem keepalive_tick_behavior_witness :
    keepaliveTick (some ReadyState.closed) false true = KeepaliveAction.nothing :=
  keepalive_tick_behavior.2.2.2.2.2.2.2 ReadyState.closed true (by decide)

/-- C7 as stated is false: processing a stopped frame on a state whose
status-poll interval (id 3) is live leaves that interval live and its ref
set — the status poller is not cancelled by this handler. -/
theorem stopped_frame_claim_counterexample :
    (applyMessage demoState Frame.stopped).livePolls = [3] ∧
    (applyMessage demoState Frame.stopped).statusPollIntervalRef = some 3 ∧
    (applyMessage demoState Frame.stopped).livePolls ≠ [] := by
  decide

/-- C7 amended: processing a stopped frame marks recording inactive, clears
the visible error and cancels the keepalive interval, but leaves the
status-poll interval untouched; subsequent poll ticks are no-ops because
recording is inactive. -/
theorem stopped_frame_effects :
    (∀ s, (applyMessage s Frame.stopped).isRecording = false ∧
          (applyMessage s Frame.stopped).error = none ∧
          (applyMessage s Frame.stopped).livePolls = s.livePolls ∧
          (applyMessage s Frame.stopped).statusPollIntervalRef =
            s.statusPollIntervalRef) ∧
    (∀ s, s.livePings = optList s.pingIntervalRef →
      (applyMessage s Frame.stopped).livePings = []) ∧
    (∀ s r, s.isRecording = false → pollSessionStatus s r = s) := by
  refine ⟨?_, ?_, ?_⟩
  · intro s
    unfold applyMessage
    cases hp : s.pingIntervalRef <;> simp [hp]
  · intro s h
    unfold applyMessage
    cases hp : s.pingIntervalRef <;> rw [hp] at h <;>
      simp [hp, h, optList]
  · intro s r h
    unfold pollSessionStatus
    simp [h]

/-- Instantiation of `stopped_frame_effects` at the concrete state
`demoState` (live ping interval 2) and the stopped state. -/
theorem stopped_frame_effects_witness :
    (applyMessage demoState Frame.stopped).livePings = [] ∧
    pollSessionStatus (stopRecording demoState) PollResult.fetchError =
      stopRecording demoState :=
  ⟨stopped_frame_effects.2.1 demoState (by decide),
   stopped_frame_effects.2.2 (stopRecording demoState) PollResult.fetchError (by decide)⟩

/-- C8: the parameter frame sent on the initial open and the parameter frame
sent on any reconnect of the same session are the identical byte string, and
no message, scheduler, reconnect-callback or poll step ever mutates the
cached parameter snapshot. -/
theorem parameter_frame_fidelity :
    (∀ p, reconnectParamsFrame p = startParamsFrame p) ∧
    (∀ s f, (applyMessage s f).recordingParamsRef = s.recordingParamsRef) ∧
    (∀ s t, (reconnectWebSocket s t).1.recordingParamsRef = s.recordingParamsRef) ∧
    (∀ s t, (reconnectTimerFired s t).1.recordingParamsRef = s.recordingParamsRef) ∧
    (∀ s r, (pollSessionStatus s r).recordingParamsRef = s.recordingParamsRef) := by
  refine ⟨?_, ?_, ?_, ?_, ?_⟩
  · intro p; rfl
  · intro s f
    cases f <;> simp only [applyMessage] <;> (try split) <;> rfl
  · intro s t
    unfold reconnectWebSocket
    split
    · rfl
    · cases hr : s.reconnectTimeoutRef <;> simp [hr]
  · intro s t
    unfold reconnectTimerFired
    split
    · dsimp only
      split <;> rfl
    · rfl
  · intro s r
    unfold pollSessionStatus
    split
    · rfl
    · cases r with
      | fetchError => rfl
      | notOk => rfl
      | ok isRec t tr => cases isRec <;> rfl

/-- C9: a poll whose fetch throws (and one whose response is not ok) changes
no state at all, and no poll outcome whatsoever touches the transport handle,
the pending reconnect timeout, the live reconnect timers or the attempt
counter. -/
theorem poll_error_swallowed :
    (∀ s, pollSessionStatus s PollResult.fetchError = s) ∧
    (∀ s, pollSessionStatus s PollResult.notOk = s) ∧
    (∀ s r, (pollSessionStatus s r).wsRef = s.wsRef ∧
            (pollSessionStatus s r).reconnectTimeoutRef = s.reconnectTimeoutRef ∧
            (pollSessionStatus s r).liveReconnects = s.liveReconnects ∧
            (pollSessionStatus s r).reconnectAttemptsRef = s.reconnectAttemptsRef) := by
  refine ⟨?_, ?_, ?_⟩
  · intro s
    unfold pollSessionStatus
    split <;> rfl
  · intro s
    unfold pollSessionStatus
    split <;> rfl
  · intro s r
    unfold pollSessionStatus
    split
    · exact ⟨rfl, rfl, rfl, rfl⟩
    · cases r with
      | fetchError => exact ⟨rfl, rfl, rfl, rfl⟩
      | notOk => exact ⟨rfl, rfl, rfl, rfl⟩
      | ok isRec t tr => cases isRec <;> exact ⟨rfl, rfl, rfl, rfl⟩

/-- C10: a text frame with an absent or empty snapshot changes nothing; an ok
poll body with an absent or empty text (or translated text) leaves the
corresponding local field at its previous value; and neither a text frame nor
any poll outcome ever turns a non-empty local field empty. -/
theorem empty_snapshot_never_overwrites :
    (∀ s, applyMessage s (Frame.text none) = s) ∧
    (∀ s, applyMessage s (Frame.text (some "")) = s) ∧
    (∀ s tr, (pollSessionStatus s (PollResult.ok true none tr)).text = s.text) ∧
    (∀ s tr, (pollSessionStatus s (PollResult.ok true (some "") tr)).text = s.text) ∧
    (∀ s t, (pollSessionStatus s (PollResult.ok true t none)).translatedText =
      s.translatedText) ∧
    (∀ s t, (pollSessionStatus s (PollResult.ok true t (some ""))).translatedText =
      s.translatedText) ∧
    (∀ s o, s.text ≠ "" → (applyMessage s (Frame.text o)).text ≠ "") ∧
    (∀ s r, s.text ≠ "" → (pollSessionStatus s r).text ≠ "") ∧
    (∀ s r, s.translatedText ≠ "" → (pollSessionStatus s r).translatedText ≠ "") := by
  refine ⟨?_, ?_, ?_, ?_, ?_, ?_, ?_, ?_, ?_⟩
  · intro s; rfl
  · intro s; rfl
  · intro s tr
    unfold pollSessionStatus
    split
    · rfl
    · simp [jsOr]
  · intro s tr
    unfold pollSessionStatus
    split
    · rfl
    · simp [jsOr]
  · intro s t
    unfold pollSessionStatus
    split
    · rfl
    · simp [jsOr]
  · intro s t
    unfold pollSessionStatus
    split
    · rfl
    · simp [jsOr]
  · intro s o h
    by_cases he : jsOrEmpty o = ""
    · simp only [applyMessage, he, if_pos]
      exact h
    · simp only [applyMessage, if_neg he]
      exact he
  · intro s r h
    unfold pollSessionStatus
    split
    · exact h
    · cases r with
      | fetchError => exact h
      | notOk => exact h
      | ok isRec t tr =>
        cases isRec
        · simpa using h
        · by_cases ht : t.getD "" = "" <;> simp [jsOr, ht, h]
  · intro s r h
    unfold pollSessionStatus
    split
    · exact h
    · cases r with
      | fetchError => exact h
      | notOk => exact h
      | ok isRec t tr =>
        cases isRec
        · simpa using h
        · by_cases ht : tr.getD "" = "" <;> simp [jsOr, ht, h]

/-- Instantiation of `empty_snapshot_never_overwrites` at concrete states
holding non-empty snapshots. -/
theorem empty_snapshot_never_overwrites_witness :
    (applyMessage demoState (Frame.text (some ""))).text ≠ "" ∧
    (pollSessionStatus demoState (PollResult.ok true (some "") none)).text ≠ "" ∧
    (pollSessionStatus { demoState with translatedText := "hola" }
      (PollResult.ok true none (some ""))).translatedText ≠ "" :=
  ⟨empty_snapshot_never_overwrites.2.2.2.2.2.2.1 demoState (some "") (by decide),
   empty_snapshot_never_overwrites.2.2.2.2.2.2.2.1 demoState
     (PollResult.ok true (some "") none) (by decide),
   empty_snapshot_never_overwrites.2.2.2.2.2.2.2.2
     { demoState with translatedText := "hola" }
     (PollResult.ok true none (some "")) (by decide)⟩
